import Mathlib

set_option autoImplicit false

/-
Shallow embedding of the MCP tool-server layer of the repository:

  src/mcp/servers/base_server.py   (tool registry: register_tool, list_tools, call_tool)
  src/mcp/client.py                (tool bridge: _create_tool_wrapper, tool_func)
  src/mcp/servers/highbyte_mock.py (equipment backend: _query_timeseries)
  src/mcp/servers/sqlserver_mock.py(transactional backend: _query_work_orders,
                                    _create_maintenance_ticket)
  src/mcp/servers/highbyte_server.py (remote tool client: call_tool)

Python values that flow through tool arguments and results are modelled by
the inductive type PyValue; a raised Python exception is modelled as the
error branch of Except carrying the exception class name and message.
Randomness (random.choice, random.uniform, ...) is modelled by explicit
oracle parameters, since no claim depends on the drawn values themselves.
ISO timestamps are modelled as integer epoch seconds: datetime arithmetic
in the source only ever adds seconds and compares instants.
-/

/-- Embedding of the Python values that appear in tool arguments and data. -/
inductive PyValue where
  | none
  | bool (b : Bool)
  | int (n : Int)
  | str (s : String)
  | list (vs : List PyValue)

/-- Embedding of a raised Python exception: class name and message. -/
structure PyExn where
  kind : String
  msg : String

/-- Keyword arguments of a tool call, in order. -/
def PyArgs : Type := List (String × PyValue)

/-- Schema of one property inside an input schema, as the dictionaries
written in the mock servers: a type string, a description, and possibly a
declared default value. -/
structure PropSchema where
  type : Option String
  descr : Option String
  default : Option PyValue

/-- Embedding of the inputSchema dictionaries: ordered properties plus the
required list. -/
structure InputSchema where
  properties : List (String × PropSchema)
  required : List String

/-- Embedding of MCPTool from base_server.py: name, description, input
schema and handler.  The handler function models the complete Python call
semantics of handler(**arguments): any exception the call raises
(including a TypeError from keyword binding) is its error branch. -/
structure MCPTool where
  name : String
  descr : String
  input_schema : InputSchema
  handler : List (String × PyValue) → Except PyExn PyValue

/-- Embedding of register_tool (base_server.py line 44): Python dict
assignment self.tools[name] = tool.  If the name is already a key the
entry is overwritten in place (the key keeps its position); otherwise the
entry is appended. -/
def register_tool (r : List MCPTool) (t : MCPTool) : List MCPTool :=
  if r.any (fun u => u.name == t.name) then
    r.map (fun u => if u.name == t.name then t else u)
  else
    r ++ [t]

/-- A registry built by a sequence of register_tool calls starting from
the empty dict of BaseMCPServer.init. -/
def build_registry (regs : List MCPTool) : List MCPTool :=
  regs.foldl register_tool []

/-- The key list of the registry dict, in insertion order. -/
def reg_keys (r : List MCPTool) : List String :=
  r.map (fun t => t.name)

/-- One entry of the list_tools output: the handler is not exposed. -/
structure ToolListing where
  name : String
  descr : String
  inputSchema : InputSchema

/-- Embedding of list_tools (base_server.py line 68): every registered
tool, in dict order, as name / description / inputSchema. -/
def list_tools (r : List MCPTool) : List ToolListing :=
  r.map (fun t => ⟨t.name, t.descr, t.input_schema⟩)

/-- Dictionary lookup self.tools[name] on the registry. -/
def lookup_tool (r : List MCPTool) (tool_name : String) : Option MCPTool :=
  r.find? (fun t => t.name == tool_name)

/-- A single quote character, used by the Python repr of strings. -/
def squote : String := String.singleton (Char.ofNat 39)

/-- Python repr of a string: the text between single quotes. -/
def pyReprStr (s : String) : String := squote ++ s ++ squote

/-- Python repr of a list of strings, as produced by the f-string
interpolation of list(self.tools.keys()). -/
def pyStrList (xs : List String) : String :=
  "[" ++ String.intercalate ", " (xs.map pyReprStr) ++ "]"

/-- The message of the ValueError raised by call_tool for a missing name
(base_server.py line 99). -/
def unknown_tool_msg (tool_name : String) (ks : List String) : String :=
  "Unknown tool: " ++ tool_name ++ ". Available: " ++ pyStrList ks

/-- Embedding of the dictionaries returned by call_tool: a success flag,
and data, error, error_type keys that are present or absent. -/
structure CallResult where
  success : Bool
  data : Option PyValue
  error : Option String
  error_type : Option String

/-- Embedding of call_tool (base_server.py line 84).  A missing tool name
raises ValueError; a handler exception is caught and converted into a
structured failure result; a handler return value is wrapped in a success
result. -/
def call_tool (r : List MCPTool) (tool_name : String)
    (arguments : List (String × PyValue)) : Except PyExn CallResult :=
  match lookup_tool r tool_name with
  | Option.none =>
    Except.error ⟨"ValueError", unknown_tool_msg tool_name (reg_keys r)⟩
  | Option.some t =>
    match t.handler arguments with
    | Except.ok v => Except.ok ⟨true, Option.some v, Option.none, Option.none⟩
    | Except.error e =>
      Except.ok ⟨false, Option.none, Option.some e.msg, Option.some e.kind⟩

/-- Embedding of json.dumps on embedded values. -/
def pyJsonDumps : PyValue → String
  | PyValue.none => "null"
  | PyValue.bool true => "true"
  | PyValue.bool false => "false"
  | PyValue.int n => toString n
  | PyValue.str s => "\"" ++ s ++ "\""
  | PyValue.list vs =>
    "[" ++ String.intercalate ", " (vs.attach.map (fun x => pyJsonDumps x.1)) ++ "]"
decreasing_by
  have h := List.sizeOf_lt_of_mem x.2
  simp only [PyValue.list.sizeOf_spec]
  omega

/-- The body of the try block of tool_func (client.py lines 128 to 151)
applied to the dictionary returned by call_tool: reads result.get with key
success, renders data on success, or the prefixed error string on
failure. -/
def tool_func_body (result : CallResult) : Except PyExn String :=
  if result.success then
    match result.data with
    | Option.some d => Except.ok (pyJsonDumps d)
    | Option.none => Except.error ⟨"KeyError", pyReprStr "data"⟩
  else
    Except.ok ("Error: " ++ result.error.getD "Unknown error")

/-- Embedding of tool_func (client.py line 126), the callable generated by
the tool bridge: the try block runs server.call_tool and renders the
result; the except block turns any exception into the prefixed string.
In the embedding exceptions are the error branch of Except, so this
function is total: it returns a string on every input and never raises. -/
def tool_func (r : List MCPTool) (tool_name : String)
    (kwargs : List (String × PyValue)) : String :=
  match (call_tool r tool_name kwargs).bind tool_func_body with
  | Except.ok s => s
  | Except.error e => "Exception calling " ++ tool_name ++ ": " ++ e.msg

/-- A string carries an error indicator prefix when it starts with the
failure prefix or the exception prefix written in tool_func. -/
def hasErrorIndicator (s : String) : Prop :=
  (∃ rest, s = "Error: " ++ rest) ∨ (∃ rest, s = "Exception calling " ++ rest)

/-
Equipment backend, highbyte_mock.py.
-/

/-- The static equipment map of HighByteMockServer.init. -/
def equipment_map : List (String × List String) :=
  [("CNC-Machine-1", ["Temperature", "Speed", "Vibration", "Status"]),
   ("CNC-Machine-2", ["Temperature", "Speed", "Vibration", "Status"]),
   ("CNC-Machine-3", ["Temperature", "Speed", "Vibration", "Status"]),
   ("Conveyor-A", ["Speed", "Load", "Status"]),
   ("Conveyor-B", ["Speed", "Load", "Status"]),
   ("Press-1", ["Force", "Temperature", "CycleCount", "Status"])]

/-- Lookup of self.equipment[equipment_id]. -/
def lookup_equipment (equipment_id : String) : Option (List String) :=
  (equipment_map.find? (fun p => p.1 == equipment_id)).map (fun p => p.2)

/-- One generated data point of the time-series query. -/
structure TSPoint where
  timestamp : Int
  value : PyValue
  quality : String

/-- The while loop of query_timeseries (highbyte_mock.py lines 156 to 165),
run on a fuel budget: while current_time less or equal end_dt, append a
point and advance current_time by interval_seconds.  A none result means
the given fuel did not complete the loop; if no fuel completes it, the
Python loop runs forever. -/
def ts_loop (gen : Int → PyValue) (end_dt interval : Int) :
    Nat → Int → List TSPoint → Option (List TSPoint)
  | 0, _, _ => Option.none
  | fuel + 1, current, acc =>
    if current ≤ end_dt then
      ts_loop gen end_dt interval fuel (current + interval)
        (acc ++ [⟨current, gen current, "Good"⟩])
    else
      Option.some acc

/-- The dictionary returned by query_timeseries. -/
structure TSResult where
  equipment_id : String
  tag_name : String
  start_time : Int
  end_time : Int
  interval_seconds : Int
  data_points : List TSPoint
  count : Nat

/-- Embedding of query_timeseries (highbyte_mock.py line 135): validates
the equipment id and tag name, then generates points from start to end.
Timestamps are epoch seconds (datetime.fromisoformat on a valid literal);
gen is the randomness oracle behind generate_tag_value.  The outer Option
is the fuel bound of the while loop. -/
def query_timeseries (gen : Int → PyValue) (equipment_id tag_name : String)
    (start_time end_time interval_seconds : Int) (fuel : Nat) :
    Option (Except PyExn TSResult) :=
  match lookup_equipment equipment_id with
  | Option.none =>
    Option.some (Except.error ⟨"ValueError", "Unknown equipment: " ++ equipment_id⟩)
  | Option.some tags =>
    if tag_name ∈ tags then
      (ts_loop gen end_time interval_seconds fuel start_time []).map (fun pts =>
        Except.ok ⟨equipment_id, tag_name, start_time, end_time,
          interval_seconds, pts, pts.length⟩)
    else
      Option.some (Except.error ⟨"ValueError",
        "Unknown tag " ++ pyReprStr tag_name ++ " for equipment " ++
          pyReprStr equipment_id⟩)

/-- The registered input schema of the highbyte_query_timeseries tool
(highbyte_mock.py lines 66 to 86). -/
def timeseries_schema : InputSchema :=
  ⟨[("equipment_id", ⟨Option.some "string", Option.none, Option.none⟩),
    ("tag_name", ⟨Option.some "string", Option.none, Option.none⟩),
    ("start_time",
      ⟨Option.some "string",
       Option.some ("ISO format datetime (e.g., " ++ pyReprStr "2024-12-07T10:00:00" ++ ")"),
       Option.none⟩),
    ("end_time", ⟨Option.some "string", Option.some "ISO format datetime", Option.none⟩),
    ("interval_seconds",
      ⟨Option.some "integer", Option.some "Data point interval in seconds",
       Option.some (PyValue.int 60)⟩)],
   ["equipment_id", "tag_name", "start_time", "end_time"]⟩

/-
Transactional backend, sqlserver_mock.py.
-/

/-- The random draws made by one iteration of the work-order loop. -/
structure WorkOrderDraw where
  status : String
  priority : String
  equipment_id : String
  descr : String
  created_days_ago : Int
  assigned_to : Option String
  estimated_hours : Int

/-- One generated work-order record. -/
structure WorkOrder where
  id : String
  equipment_id : String
  descr : String
  status : String
  priority : String
  created_days_ago : Int
  assigned_to : Option String
  estimated_hours : Int

/-- The record built at loop index i from the draws of that iteration. -/
def mk_work_order (i : Nat) (d : WorkOrderDraw) : WorkOrder :=
  ⟨"WO-" ++ toString (10000 + i), d.equipment_id, d.descr, d.status,
   d.priority, d.created_days_ago, d.assigned_to, d.estimated_hours⟩

/-- The dictionary returned by query_work_orders. -/
structure WorkOrdersResult where
  work_orders : List WorkOrder
  count : Nat
  filter_status : String
  filter_priority : Option String

/-- Python truthiness of the optional priority filter: None and the empty
string are falsy. -/
def truthyOptStr : Option String → Bool
  | Option.none => false
  | Option.some p => p != ""

/-- The loop of query_work_orders (sqlserver_mock.py lines 147 to 175):
for i in range(min(limit, 20)), draw a candidate record, skip it when a
filter rejects it, and collect the rest.  draw is the randomness oracle
for iteration i. -/
def work_orders_loop (draw : Nat → WorkOrderDraw) (status : String)
    (priority : Option String) (limit : Int) : List WorkOrder :=
  (List.range (min limit 20).toNat).filterMap (fun i =>
    let d := draw i
    if status != "all" && d.status != status then Option.none
    else if truthyOptStr priority && d.priority != priority.getD "" then Option.none
    else Option.some (mk_work_order i d))

/-- Embedding of query_work_orders (sqlserver_mock.py line 135). -/
def query_work_orders (draw : Nat → WorkOrderDraw) (status : String)
    (priority : Option String) (limit : Int) : WorkOrdersResult :=
  ⟨work_orders_loop draw status priority limit,
   (work_orders_loop draw status priority limit).length, status, priority⟩

/-- One stored maintenance ticket. -/
structure MaintTicket where
  ticket_id : String
  equipment_id : String
  descr : String
  priority : String
  status : String
  created_date : Int
  created_by : String
  assigned_to : Option String
  estimated_resolution : Int

/-- The mutable state of SQLServerMockServer: the in-memory lists and the
ticket counter (sqlserver_mock.py lines 28 to 31). -/
structure SqlState where
  work_orders : List WorkOrder
  maintenance_tickets : List MaintTicket
  next_ticket_id : Nat

/-- The state set up by SQLServerMockServer.init. -/
def sql_init_state : SqlState := ⟨[], [], 1000⟩

/-- The ticket dictionary built by create_maintenance_ticket from the
counter value num at time now (epoch seconds). -/
def mk_ticket (num : Nat) (equipment_id descr priority : String)
    (now : Int) : MaintTicket :=
  ⟨"MT-" ++ toString num, equipment_id, descr, priority, "open", now,
   "system", Option.none, now + 24 * 3600⟩

/-- The dictionary returned by create_maintenance_ticket. -/
structure CreateTicketResult where
  success : Bool
  ticket : MaintTicket
  message : String

/-- Embedding of create_maintenance_ticket (sqlserver_mock.py line 230):
renders the id from the counter, increments the counter, appends the
ticket and returns it. -/
def create_maintenance_ticket (s : SqlState)
    (equipment_id descr priority : String) (now : Int) :
    SqlState × CreateTicketResult :=
  let t := mk_ticket s.next_ticket_id equipment_id descr priority now
  (⟨s.work_orders, s.maintenance_tickets ++ [t], s.next_ticket_id + 1⟩,
   ⟨true, t, "Maintenance ticket " ++ t.ticket_id ++ " created successfully"⟩)

/-- The arguments of one create_maintenance_ticket call. -/
structure CreateCall where
  equipment_id : String
  descr : String
  priority : String
  now : Int

/-- State reached after a sequence of creation calls. -/
def run_creates (s : SqlState) (calls : List CreateCall) : SqlState :=
  calls.foldl
    (fun st c => (create_maintenance_ticket st c.equipment_id c.descr c.priority c.now).1) s

/-
Remote tool client, highbyte_server.py.
-/

/-- A tool discovered from the remote server. -/
structure DiscoveredTool where
  name : String
  descr : String
  input_schema : InputSchema

/-- Observable network side effects of the remote client. -/
inductive NetEvent where
  | connect
  | handshake
  | callToolReq (name : String)

/-- Oracle for what the network does once a connection is attempted. -/
inductive NetOutcome where
  | connectError (msg : String)
  | serverFailure (msg : String)
  | ok (content : List PyValue)

/-- The result dictionary built by the remote call_tool on success. -/
structure HBResult where
  success : Bool
  content : List PyValue

/-- The message of the ValueError raised by the remote call_tool for an
undiscovered name (highbyte_server.py lines 216 to 220). -/
def hb_unknown_tool_msg (tool_name : String) (ks : List String) : String :=
  "Unknown tool: " ++ tool_name ++ ". Available tools: " ++ pyStrList ks ++
    ". Call discover_tools() first to refresh the tool list."

/-- Embedding of HighByteServer.call_tool (highbyte_server.py line 195).
The name check runs before any transport work; only the found branch opens
a connection, runs the session handshake and issues the call, with the
outcome given by the network oracle.  The second component records the
network side effects that the call performs. -/
def hb_call_tool (tools : List DiscoveredTool) (tool_name : String)
    (_arguments : PyArgs) (net : NetOutcome) :
    Except PyExn HBResult × List NetEvent :=
  if (tools.map (fun t => t.name)).contains tool_name then
    match net with
    | NetOutcome.connectError m =>
      (Except.error ⟨"HighByteConnectionError",
        "Failed to connect to HighByte server: " ++ m⟩, [NetEvent.connect])
    | NetOutcome.serverFailure m =>
      (Except.error ⟨"HighByteServerError",
        "Failed to execute tool " ++ tool_name ++ ": " ++ m⟩,
       [NetEvent.connect, NetEvent.handshake, NetEvent.callToolReq tool_name])
    | NetOutcome.ok content =>
      (Except.ok ⟨true, content⟩,
       [NetEvent.connect, NetEvent.handshake, NetEvent.callToolReq tool_name])
  else
    (Except.error ⟨"ValueError",
      hb_unknown_tool_msg tool_name (tools.map (fun t => t.name))⟩, [])

/-
Tool bridge schema derivation, client.py lines 90 to 124.
-/

/-- The Python annotation types the bridge derives from a schema. -/
inductive PyType where
  | str
  | int
  | float
  | bool

/-- Embedding of the type mapping in create_tool_wrapper: integer, number
and boolean map to their Python types and everything else defaults to
str. -/
def map_schema_type (t : Option String) : PyType :=
  if t == Option.some "integer" then PyType.int
  else if t == Option.some "number" then PyType.float
  else if t == Option.some "boolean" then PyType.bool
  else PyType.str

/-- One derived parameter of the dynamic pydantic model: for a required
field the default is absent (Ellipsis); for an optional field the type is
wrapped in Optional and the default is the null value.  The declared
schema default is not consulted. -/
structure DerivedField where
  name : String
  type : PyType
  required : Bool
  default : Option PyValue

/-- Derivation of one field (client.py lines 95 to 117). -/
def derive_field (required : List String) (field_name : String)
    (p : PropSchema) : DerivedField :=
  ⟨field_name, map_schema_type p.type, required.contains field_name,
   if required.contains field_name then Option.none else Option.some PyValue.none⟩

/-- Derivation of the whole parameter shape from an input schema. -/
def derive_fields (schema : InputSchema) : List DerivedField :=
  schema.properties.map (fun np => derive_field schema.required np.1 np.2)

/-- Pydantic acceptance of a value by a derived annotation. -/
def value_matches : PyType → PyValue → Bool
  | PyType.str, PyValue.str _ => true
  | PyType.int, PyValue.int _ => true
  | PyType.float, PyValue.int _ => true
  | PyType.bool, PyValue.bool _ => true
  | _, _ => false

/-- A derived field accepts a provided value when the annotation matches,
and an optional field additionally accepts the null value. -/
def field_accepts (f : DerivedField) (v : PyValue) : Bool :=
  value_matches f.type v ||
    (!f.required && (match v with | PyValue.none => true | _ => false))

/-- Pydantic validation of the keyword input against the derived model:
each derived field takes the provided value when present, the null default
when absent and optional, and otherwise validation fails.  The ok branch
is the keyword dictionary that the generated StructuredTool passes to
tool_func, that is, the effective arguments forwarded to the backend. -/
def bridge_effective_args (schema : InputSchema) (provided : PyArgs) :
    Except PyExn PyArgs :=
  (derive_fields schema).mapM (fun f =>
    match provided.find? (fun kv => kv.1 == f.name) with
    | Option.some kv =>
      if field_accepts f kv.2 then Except.ok (f.name, kv.2)
      else Except.error ⟨"ValidationError", "invalid value for field " ++ f.name⟩
    | Option.none =>
      if f.required then
        Except.error ⟨"ValidationError", "field required: " ++ f.name⟩
      else
        Except.ok (f.name, PyValue.none))

/-- The schema of claim C3: a required string and an optional integer with
declared default 5. -/
def c3_schema : InputSchema :=
  ⟨[("a", ⟨Option.some "string", Option.none, Option.none⟩),
    ("b", ⟨Option.some "integer", Option.none, Option.some (PyValue.int 5)⟩)],
   ["a"]⟩

/-
Helper material shared by several claims.
-/

/-- A registry tool whose handler always raises. -/
def demo_fail_tool : MCPTool :=
  ⟨"boom_tool", "always raises", ⟨[], []⟩,
   fun _ => Except.error ⟨"RuntimeError", "boom"⟩⟩

/-- A registry tool whose handler always succeeds with a null payload. -/
def demo_ok_tool : MCPTool :=
  ⟨"alpha_tool", "first", ⟨[], []⟩, fun _ => Except.ok PyValue.none⟩

/-- A second succeeding registry tool. -/
def demo_ok_tool2 : MCPTool :=
  ⟨"beta_tool", "second", ⟨[], []⟩, fun _ => Except.ok PyValue.none⟩

/-- A concrete two-tool registry. -/
def c2_demo_registry : List MCPTool :=
  build_registry [demo_ok_tool, demo_ok_tool2]

/-
Claim theorems.
-/

/-- C1: calling the bridge generated callable always returns a string (in
the embedding tool_func is total, with every Python exception carried in
the Except error branch that the except clause of tool_func catches): on a
successful backend invocation it returns the rendered data, and on any
backend failure, whether the registry raised (for example the unknown
tool ValueError) or the handler failed and produced a structured failure
result, it returns a string carrying an error indicator prefix. -/
theorem c1_bridge_returns_string (r : List MCPTool) (tool_name : String)
    (kwargs : List (String × PyValue)) :
    (lookup_tool r tool_name = Option.none →
      tool_func r tool_name kwargs =
        "Exception calling " ++ tool_name ++ ": " ++
          unknown_tool_msg tool_name (reg_keys r)
      ∧ hasErrorIndicator (tool_func r tool_name kwargs))
    ∧ (∀ t e, lookup_tool r tool_name = Option.some t →
        t.handler kwargs = Except.error e →
        tool_func r tool_name kwargs = "Error: " ++ e.msg
        ∧ hasErrorIndicator (tool_func r tool_name kwargs))
    ∧ (∀ t v, lookup_tool r tool_name = Option.some t →
        t.handler kwargs = Except.ok v →
        tool_func r tool_name kwargs = pyJsonDumps v) := by
  refine ⟨fun hnone => ?_, fun t e hsome herr => ?_, fun t v hsome hok => ?_⟩
  · have hval : tool_func r tool_name kwargs =
        "Exception calling " ++ tool_name ++ ": " ++
          unknown_tool_msg tool_name (reg_keys r) := by
      unfold tool_func call_tool
      rw [hnone]
      rfl
    refine ⟨hval, Or.inr ⟨tool_name ++ (": " ++ unknown_tool_msg tool_name (reg_keys r)), ?_⟩⟩
    rw [hval]
    simp [String.append_assoc]
  · have hval : tool_func r tool_name kwargs = "Error: " ++ e.msg := by
      unfold tool_func call_tool
      rw [hsome]
      dsimp only
      rw [herr]
      rfl
    exact ⟨hval, Or.inl ⟨e.msg, hval⟩⟩
  · unfold tool_func call_tool
    rw [hsome]
    dsimp only
    rw [hok]
    rfl

/-- C1 witness: on a registry whose only handler raises, the bridged
callable returns the prefixed error string. -/
theorem c1_witness :
    tool_func [demo_fail_tool] "boom_tool" [] = "Error: boom"
    ∧ hasErrorIndicator (tool_func [demo_fail_tool] "boom_tool" []) :=
  (c1_bridge_returns_string [demo_fail_tool] "boom_tool" []).2.1
    demo_fail_tool ⟨"RuntimeError", "boom"⟩ rfl rfl

/-- C2 counterexample: invoking a missing name on a concrete registry
makes invoke raise a ValueError, so the call does not yield a structured
failure result: the exception escapes call_tool (the code documents the
raise in the call_tool docstring and the repository tests expect it). -/
theorem c2_counterexample :
    call_tool c2_demo_registry "missing_tool" [] =
      Except.error ⟨"ValueError",
        unknown_tool_msg "missing_tool" ["alpha_tool", "beta_tool"]⟩ := rfl

/-- C2 amended: invoking an unregistered tool name raises a ValueError
(the exception does escape invoke) whose message contains the requested
name and the list of valid registered names; a failure local to a
registered handler never escapes invoke as an exception: it is always
converted to a structured result. -/
theorem c2_amended (r : List MCPTool) (tool_name : String) (args : List (String × PyValue)) :
    (lookup_tool r tool_name = Option.none →
      call_tool r tool_name args =
        Except.error ⟨"ValueError", unknown_tool_msg tool_name (reg_keys r)⟩)
    ∧ (∀ t, lookup_tool r tool_name = Option.some t →
        ∃ res, call_tool r tool_name args = Except.ok res) := by
  constructor
  · intro hnone
    unfold call_tool
    rw [hnone]
  · intro t hsome
    unfold call_tool
    rw [hsome]
    dsimp only
    cases t.handler args <;> exact ⟨_, rfl⟩

/-- C2 witness: the amended behaviour at a concrete registry, missing
name, and registered name. -/
theorem c2_witness :
    call_tool c2_demo_registry "nope_tool" [] =
      Except.error ⟨"ValueError", unknown_tool_msg "nope_tool" ["alpha_tool", "beta_tool"]⟩
    ∧ ∃ res, call_tool c2_demo_registry "alpha_tool" [] = Except.ok res :=
  ⟨(c2_amended c2_demo_registry "nope_tool" []).1 rfl,
   (c2_amended c2_demo_registry "alpha_tool" []).2 demo_ok_tool rfl⟩

/-- C3 counterexample: on the claimed schema, the bridged callable does
not forward the same effective arguments when b is omitted as when b is
passed as 5: omission forwards the null default, because the derivation
in create_tool_wrapper never reads the declared schema default. -/
theorem c3_counterexample :
    bridge_effective_args c3_schema [("a", PyValue.str "x")] ≠
      bridge_effective_args c3_schema [("a", PyValue.str "x"), ("b", PyValue.int 5)] := by
  intro h
  have h1 : bridge_effective_args c3_schema [("a", PyValue.str "x")] =
      Except.ok [("a", PyValue.str "x"), ("b", PyValue.none)] := rfl
  have h2 : bridge_effective_args c3_schema
      [("a", PyValue.str "x"), ("b", PyValue.int 5)] =
      Except.ok [("a", PyValue.str "x"), ("b", PyValue.int 5)] := rfl
  rw [h1, h2] at h
  simp at h

/-- C3 amended: omission of b behaves identically to passing b as None,
not as 5: the bridge assigns a null default to every optional parameter
and ignores the declared schema default, so with b omitted the backend
receives b bound to None. -/
theorem c3_amended (va : PyValue) :
    bridge_effective_args c3_schema [("a", va)] =
      bridge_effective_args c3_schema [("a", va), ("b", PyValue.none)]
    ∧ bridge_effective_args c3_schema [("a", PyValue.str "x")] =
        Except.ok [("a", PyValue.str "x"), ("b", PyValue.none)] := by
  refine ⟨?_, rfl⟩
  cases va <;> rfl

/-- C4: when a registered handler raises, invoke returns the structured
failure result with success false, no data, the exception text under
error and the exception class name as the classification (the key the
source names error_type and the spec names error_kind). -/
theorem c4_handler_exception_structured (r : List MCPTool) (tool_name : String)
    (args : List (String × PyValue)) (t : MCPTool) (e : PyExn)
    (hfind : lookup_tool r tool_name = Option.some t)
    (hraise : t.handler args = Except.error e) :
    call_tool r tool_name args =
      Except.ok ⟨false, Option.none, Option.some e.msg, Option.some e.kind⟩ := by
  unfold call_tool
  rw [hfind]
  dsimp only
  rw [hraise]

/-- C4 witness: the structured failure shape on a concrete raising
handler. -/
theorem c4_witness :
    call_tool [demo_fail_tool] "boom_tool" [] =
      Except.ok ⟨false, Option.none, Option.some "boom", Option.some "RuntimeError"⟩ :=
  c4_handler_exception_structured [demo_fail_tool] "boom_tool" []
    demo_fail_tool ⟨"RuntimeError", "boom"⟩ rfl rfl

/-- C7: the work-order query never returns more than 20 records, whatever
limit is requested: the loop runs for i in range(min(limit, 20)) and at
most appends one record per iteration. -/
theorem c7_work_orders_cap (draw : Nat → WorkOrderDraw) (status : String)
    (priority : Option String) (limit : Int) :
    (query_work_orders draw status priority limit).work_orders.length ≤ 20 := by
  calc (query_work_orders draw status priority limit).work_orders.length
      ≤ (List.range (min limit 20).toNat).length := List.length_filterMap_le _ _
    _ = (min limit 20).toNat := List.length_range _
    _ ≤ 20 := by omega

/-- C9: invoking an undiscovered name on the remote client fails
immediately and locally with the ValueError that lists the known names,
and performs no network side effect at all: no connection, no handshake,
no call, no auto-discovery. -/
theorem c9_remote_unknown_tool_local (tools : List DiscoveredTool)
    (tool_name : String) (arguments : List (String × PyValue)) (net : NetOutcome)
    (h : tool_name ∉ tools.map (fun t => t.name)) :
    hb_call_tool tools tool_name arguments net =
      (Except.error ⟨"ValueError",
        hb_unknown_tool_msg tool_name (tools.map (fun t => t.name))⟩, []) := by
  unfold hb_call_tool
  rw [if_neg]
  simpa using h

/-- C9 witness: a concrete undiscovered name on a one-tool discovered set,
with a network oracle that would succeed if it were ever consulted. -/
theorem c9_witness :
    hb_call_tool [⟨"get_tag_value", "", ⟨[], []⟩⟩] "nope" [] (NetOutcome.ok []) =
      (Except.error ⟨"ValueError", hb_unknown_tool_msg "nope" ["get_tag_value"]⟩, []) :=
  c9_remote_unknown_tool_local [⟨"get_tag_value", "", ⟨[], []⟩⟩] "nope" []
    (NetOutcome.ok []) (by decide)

/-- Closed form of the tickets appended by a creation sequence whose first
ticket takes counter value base. -/
def expected_tickets (base : Nat) : List CreateCall → List MaintTicket
  | [] => []
  | c :: cs =>
    mk_ticket base c.equipment_id c.descr c.priority c.now ::
      expected_tickets (base + 1) cs

/-- The expected ticket list has one ticket per creation call. -/
theorem expected_tickets_length (base : Nat) (calls : List CreateCall) :
    (expected_tickets base calls).length = calls.length := by
  induction calls generalizing base with
  | nil => rfl
  | cons c cs ih => simp [expected_tickets, ih]

/-- The ticket ids of the expected ticket list are rendered from the
consecutive counter values starting at base. -/
theorem expected_tickets_ids (base : Nat) (calls : List CreateCall) :
    (expected_tickets base calls).map (fun t => t.ticket_id)
      = (List.range calls.length).map (fun i => "MT-" ++ toString (base + i)) := by
  induction calls generalizing base with
  | nil => rfl
  | cons c cs ih =>
    simp only [expected_tickets, List.map_cons, List.length_cons,
      List.range_succ_eq_map, List.map_map, mk_ticket]
    refine congrArg₂ _ (by simp) ?_
    rw [ih (base + 1)]
    refine List.map_congr_left (fun i _ => ?_)
    have h : base + 1 + i = base + (i + 1) := by omega
    simp [Function.comp, h]

/-- Effect of a sequence of ticket creations on the server state: the
counter advances by the number of calls and the tickets created are
appended in order, with ids drawn from consecutive counter values. -/
theorem run_creates_spec (calls : List CreateCall) (s : SqlState) :
    (run_creates s calls).next_ticket_id = s.next_ticket_id + calls.length
    ∧ (run_creates s calls).maintenance_tickets =
        s.maintenance_tickets ++ expected_tickets s.next_ticket_id calls := by
  induction calls generalizing s with
  | nil => simp [run_creates, expected_tickets]
  | cons c cs ih =>
    have hstep : run_creates s (c :: cs) =
        run_creates ⟨s.work_orders,
          s.maintenance_tickets ++
            [mk_ticket s.next_ticket_id c.equipment_id c.descr c.priority c.now],
          s.next_ticket_id + 1⟩ cs := rfl
    rw [hstep]
    obtain ⟨h1, h2⟩ := ih ⟨s.work_orders,
      s.maintenance_tickets ++
        [mk_ticket s.next_ticket_id c.equipment_id c.descr c.priority c.now],
      s.next_ticket_id + 1⟩
    constructor
    · rw [h1]
      show s.next_ticket_id + 1 + cs.length = s.next_ticket_id + (c :: cs).length
      simp only [List.length_cons]
      omega
    · rw [h2]
      simp [expected_tickets]

/-- C8: starting from the constructed state, every sequence of
maintenance-ticket creations assigns ids rendered from the consecutive
counter values 1000, 1001, ..., so the underlying id numbers are strictly
increasing and pairwise distinct; the counter is seeded at 1000, each
creation appends exactly one ticket, and the stored list has one ticket
per creation. -/
theorem c8_ticket_counter (calls : List CreateCall) :
    sql_init_state.next_ticket_id = 1000
    ∧ (run_creates sql_init_state calls).maintenance_tickets.length = calls.length
    ∧ (run_creates sql_init_state calls).next_ticket_id = 1000 + calls.length
    ∧ (run_creates sql_init_state calls).maintenance_tickets.map (fun t => t.ticket_id)
        = (List.range calls.length).map (fun i => "MT-" ++ toString (1000 + i))
    ∧ List.Pairwise (fun a b => a < b)
        ((List.range calls.length).map (fun i => 1000 + i))
    ∧ ∀ (s : SqlState) (c : CreateCall),
        ((create_maintenance_ticket s c.equipment_id c.descr c.priority c.now).1).maintenance_tickets
          = s.maintenance_tickets ++
              [mk_ticket s.next_ticket_id c.equipment_id c.descr c.priority c.now] := by
  obtain ⟨h1, h2⟩ := run_creates_spec calls sql_init_state
  refine ⟨rfl, ?_, ?_, ?_, ?_, fun s c => rfl⟩
  · rw [h2]
    simp [sql_init_state, expected_tickets_length]
  · rw [h1]
    rfl
  · rw [h2]
    simpa [sql_init_state] using expected_tickets_ids 1000 calls
  · rw [List.pairwise_map]
    exact (List.pairwise_lt_range _).imp (fun h => by omega)

/-- First-occurrence deduplication of a key sequence: the key order of a
Python dict after the sequence of insertions. -/
def dedup_first : List String → List String
  | [] => []
  | x :: xs => x :: (dedup_first xs).filter (fun y => y != x)

/-- Membership in the deduplicated key sequence is membership in the
original sequence. -/
theorem mem_dedup_first (y : String) (xs : List String) :
    y ∈ dedup_first xs ↔ y ∈ xs := by
  induction xs with
  | nil => simp [dedup_first]
  | cons x l ih =>
    simp only [dedup_first, List.mem_cons, List.mem_filter, ih, bne_iff_ne]
    by_cases h : y = x
    · simp [h]
    · simp [h]

/-- Appending one more key to the insertion sequence either leaves the
dict key order unchanged or appends the new key at the end. -/
theorem dedup_first_append (xs : List String) (x : String) :
    dedup_first (xs ++ [x]) =
      if x ∈ xs then dedup_first xs else dedup_first xs ++ [x] := by
  induction xs with
  | nil => simp [dedup_first]
  | cons y ys ih =>
    have hstep : dedup_first ((y :: ys) ++ [x])
        = y :: (dedup_first (ys ++ [x])).filter (fun z => z != y) := rfl
    have hcons : dedup_first (y :: ys)
        = y :: (dedup_first ys).filter (fun z => z != y) := rfl
    rw [hstep, ih, hcons]
    by_cases hmem : x ∈ ys
    · rw [if_pos hmem, if_pos (List.mem_cons.2 (Or.inr hmem))]
    · rw [if_neg hmem]
      by_cases hxy : x = y
      · rw [if_pos (List.mem_cons.2 (Or.inl hxy))]
        rw [List.filter_append]
        simp [hxy]
      · rw [if_neg (by simp [List.mem_cons, hxy, hmem])]
        rw [List.filter_append]
        simp [hxy]

/-- Overwriting an existing key leaves the key order of the dict
unchanged. -/
theorem reg_keys_replace (r : List MCPTool) (t : MCPTool) :
    reg_keys (r.map (fun u => if u.name == t.name then t else u)) = reg_keys r := by
  unfold reg_keys
  rw [List.map_map]
  refine List.map_congr_left (fun u _ => ?_)
  show (if u.name == t.name then t else u).name = u.name
  by_cases h : u.name == t.name
  · rw [if_pos h]
    exact (eq_of_beq h).symm
  · rw [if_neg h]

/-- Key order after one register_tool call: unchanged on overwrite,
appended on a fresh name. -/
theorem reg_keys_register (r : List MCPTool) (t : MCPTool) :
    reg_keys (register_tool r t) =
      if t.name ∈ reg_keys r then reg_keys r else reg_keys r ++ [t.name] := by
  unfold register_tool
  by_cases h : t.name ∈ reg_keys r
  · rw [if_pos h]
    have hany : r.any (fun u => u.name == t.name) = true := by
      rw [List.any_eq_true]
      obtain ⟨u, hu, hn⟩ := List.mem_map.1 h
      exact ⟨u, hu, by rw [hn]; exact beq_self_eq_true _⟩
    rw [if_pos hany]
    exact reg_keys_replace r t
  · rw [if_neg h]
    have hany : r.any (fun u => u.name == t.name) = false := by
      rw [List.any_eq_false]
      intro u hu hn
      exact h (List.mem_map.2 ⟨u, hu, eq_of_beq hn⟩)
    rw [if_neg (by simp [hany])]
    unfold reg_keys
    simp

/-- Lookup after an overwrite of the key being looked up: the overwriting
tool is found. -/
theorem lookup_replace_eq (r : List MCPTool) (t : MCPTool) (n : String)
    (h : (t.name == n) = true) :
    lookup_tool (r.map (fun u => if u.name == t.name then t else u)) n =
      (lookup_tool r n).map (fun _ => t) := by
  induction r with
  | nil => rfl
  | cons u us ih =>
    unfold lookup_tool at ih ⊢
    simp only [List.map_cons]
    by_cases hu : u.name == t.name
    · rw [if_pos hu]
      have hun : (u.name == n) = true := by
        rw [eq_of_beq hu]
        exact h
      rw [List.find?_cons, List.find?_cons, h, hun]
      rfl
    · rw [if_neg hu]
      have hune : (u.name == n) = false := by
        have h1 : u.name ≠ t.name := ne_of_beq_false (by simpa using hu)
        have h2 : t.name = n := eq_of_beq h
        exact beq_eq_false_iff_ne.2 (by rw [← h2]; exact h1)
      rw [List.find?_cons, List.find?_cons, hune]
      exact ih

/-- Lookup of a different key is unchanged by an overwrite. -/
theorem lookup_replace_ne (r : List MCPTool) (t : MCPTool) (n : String)
    (h : (t.name == n) = false) :
    lookup_tool (r.map (fun u => if u.name == t.name then t else u)) n =
      lookup_tool r n := by
  induction r with
  | nil => rfl
  | cons u us ih =>
    unfold lookup_tool at ih ⊢
    simp only [List.map_cons]
    by_cases hu : u.name == t.name
    · rw [if_pos hu]
      have hune : (u.name == n) = false := by
        rw [eq_of_beq hu]
        exact h
      rw [List.find?_cons, List.find?_cons, h, hune]
      exact ih
    · rw [if_neg hu]
      rw [List.find?_cons, List.find?_cons]
      cases hp : u.name == n
      · exact ih
      · rfl

/-- Lookup after one register_tool call: the registered name now maps to
the registered tool; every other name is unaffected. -/
theorem lookup_register (r : List MCPTool) (t : MCPTool) (n : String) :
    lookup_tool (register_tool r t) n =
      if t.name == n then Option.some t else lookup_tool r n := by
  unfold register_tool
  by_cases hany : r.any (fun u => u.name == t.name) = true
  · rw [if_pos hany]
    by_cases h : (t.name == n) = true
    · rw [if_pos (by simp [h]), lookup_replace_eq r t n h]
      have hs : (lookup_tool r n).isSome := by
        obtain ⟨u, hu, hb⟩ := List.any_eq_true.1 hany
        exact List.find?_isSome.2 ⟨u, hu, by rw [eq_of_beq hb]; exact h⟩
      cases hlk : lookup_tool r n with
      | none => rw [hlk] at hs; simp at hs
      | some w => rfl
    · rw [if_neg (by simp [h] : ¬ (t.name == n) = true)]
      exact lookup_replace_ne r t n (by simpa using h)
  · rw [if_neg hany]
    have hall : ∀ u ∈ r, (u.name == t.name) = false := by
      intro u hu
      by_contra hc
      exact hany (List.any_eq_true.2 ⟨u, hu, by simpa using hc⟩)
    by_cases h : (t.name == n) = true
    · rw [if_pos (by simp [h])]
      have hnone : lookup_tool r n = Option.none := by
        unfold lookup_tool
        rw [List.find?_eq_none]
        intro u hu
        have h1 := hall u hu
        have h2 : t.name = n := eq_of_beq h
        simp only [← h2]
        simp [h1]
      unfold lookup_tool at hnone ⊢
      rw [List.find?_append, hnone]
      simp [List.find?, h]
    · rw [if_neg (by simp [h] : ¬ (t.name == n) = true)]
      unfold lookup_tool
      rw [List.find?_append]
      have hsingle : List.find? (fun u => u.name == n) [t] = Option.none := by
        simp only [List.find?]
        have : (t.name == n) = false := by simpa using h
        simp [this]
      rw [hsingle]
      simp

/-- Lookup in the registry built by a registration sequence finds the last
registration of the requested name. -/
theorem lookup_build (regs : List MCPTool) (n : String) :
    lookup_tool (build_registry regs) n
      = regs.reverse.find? (fun t => t.name == n) := by
  induction regs using List.reverseRecOn with
  | nil => rfl
  | append_singleton rs t ih =>
    have hb : build_registry (rs ++ [t]) = register_tool (build_registry rs) t := by
      unfold build_registry
      rw [List.foldl_append]
      rfl
    rw [hb, lookup_register, List.reverse_append, ih]
    by_cases h : (t.name == n) = true
    · rw [if_pos (by simp [h])]
      simp [List.find?_cons_of_pos _ h, h]
    · rw [if_neg (by simp [h] : ¬ (t.name == n) = true)]
      have hf : (t.name == n) = false := by simpa using h
      simp [List.find?_cons_of_neg, hf]

/-- Key order of the registry built by a registration sequence: the
registered names in first-registration order. -/
theorem keys_build (regs : List MCPTool) :
    reg_keys (build_registry regs) = dedup_first (regs.map (fun t => t.name)) := by
  induction regs using List.reverseRecOn with
  | nil => rfl
  | append_singleton rs t ih =>
    have hb : build_registry (rs ++ [t]) = register_tool (build_registry rs) t := by
      unfold build_registry
      rw [List.foldl_append]
      rfl
    rw [hb, reg_keys_register, ih, List.map_append]
    simp only [List.map_cons, List.map_nil]
    rw [dedup_first_append]
    simp only [mem_dedup_first]

/-- C5: the registry built from any registration sequence lists exactly
the registered names in registration order (first registration fixes the
position), resolves every name to its last registration (so descriptions
and schemas match the registered definitions), and registering an already
present name overwrites the entry rather than rejecting it. -/
theorem c5_registry_semantics (regs : List MCPTool) (n : String) :
    reg_keys (build_registry regs) = dedup_first (regs.map (fun t => t.name))
    ∧ (list_tools (build_registry regs)).map (fun d => d.name)
        = dedup_first (regs.map (fun t => t.name))
    ∧ lookup_tool (build_registry regs) n = regs.reverse.find? (fun t => t.name == n)
    ∧ ∀ (r : List MCPTool) (t : MCPTool),
        lookup_tool (register_tool r t) t.name = Option.some t := by
  refine ⟨keys_build regs, ?_, lookup_build regs n, fun r t => ?_⟩
  · have hnames : (list_tools (build_registry regs)).map (fun d => d.name)
        = reg_keys (build_registry regs) := by
      unfold list_tools reg_keys
      rw [List.map_map]
      rfl
    rw [hnames, keys_build]
  · rw [lookup_register]
    rw [if_pos (by simp)]

/-- Number of points the time-series loop still emits when it stands at a
given current time. -/
def ts_steps (end_dt interval current : Int) : Nat :=
  if current ≤ end_dt then (end_dt - current).toNat / interval.toNat + 1 else 0

/-- The list of points the loop emits: one per interval step, starting at
the given current time. -/
def ts_expected (gen : Int → PyValue) (interval : Int) : Nat → Int → List TSPoint
  | 0, _ => []
  | n + 1, current =>
    ⟨current, gen current, "Good"⟩ :: ts_expected gen interval n (current + interval)

/-- The expected point list has exactly the prescribed number of points. -/
theorem ts_expected_length (gen : Int → PyValue) (interval : Int) :
    ∀ (n : Nat) (current : Int), (ts_expected gen interval n current).length = n := by
  intro n
  induction n with
  | zero => intro current; rfl
  | succ m ih =>
    intro current
    simp only [ts_expected, List.length_cons, ih]

/-- The expected point list in closed form: the timestamp of point k is
current + k * interval, so the points sit at every interval step with both
endpoints included when the last step lands on the end time. -/
theorem ts_expected_eq_map (gen : Int → PyValue) (interval : Int) :
    ∀ (n : Nat) (current : Int),
      ts_expected gen interval n current
        = (List.range n).map (fun k =>
            ⟨current + k * interval, gen (current + k * interval), "Good"⟩) := by
  intro n
  induction n with
  | zero => intro current; rfl
  | succ m ih =>
    intro current
    have hcons : ts_expected gen interval (m + 1) current
        = ⟨current, gen current, "Good"⟩ :: ts_expected gen interval m (current + interval) := rfl
    rw [hcons, ih (current + interval), List.range_succ_eq_map, List.map_cons,
      List.map_map]
    congr 1
    · simp
    · refine List.map_congr_left (fun k _ => ?_)
      have harith : current + interval + (k : Int) * interval
          = current + ((k : Int) + 1) * interval := by ring
      simp [Function.comp, Nat.succ_eq_add_one, Nat.cast_add, Nat.cast_one, harith]

/-- One interval step shortens the remaining step count by one. -/
theorem ts_steps_succ (end_dt interval current : Int) (hpos : 0 < interval)
    (hc : current ≤ end_dt) (hc2 : current + interval ≤ end_dt) :
    ts_steps end_dt interval current
      = ts_steps end_dt interval (current + interval) + 1 := by
  unfold ts_steps
  rw [if_pos hc, if_pos hc2]
  have hm : (end_dt - (current + interval)).toNat
      = (end_dt - current).toNat - interval.toNat := by omega
  have hk : interval.toNat ≤ (end_dt - current).toNat := by omega
  have hkpos : 0 < interval.toNat := by omega
  rw [hm, Nat.div_eq_sub_div hkpos hk]

/-- Partial correctness of the time-series loop: whenever it completes, it
has appended exactly one point per interval step from the current time up
to end_dt. -/
theorem ts_loop_some_spec (gen : Int → PyValue) (end_dt interval : Int)
    (hpos : 0 < interval) :
    ∀ (fuel : Nat) (current : Int) (acc pts : List TSPoint),
      ts_loop gen end_dt interval fuel current acc = Option.some pts →
      pts = acc ++ ts_expected gen interval (ts_steps end_dt interval current) current := by
  intro fuel
  induction fuel with
  | zero =>
    intro current acc pts h
    simp [ts_loop] at h
  | succ f ih =>
    intro current acc pts h
    simp only [ts_loop] at h
    by_cases hc : current ≤ end_dt
    · rw [if_pos hc] at h
      have hrec := ih _ _ _ h
      rw [hrec, List.append_assoc]
      by_cases hc2 : current + interval ≤ end_dt
      · rw [ts_steps_succ end_dt interval current hpos hc hc2]
        rfl
      · have hsteps0 : ts_steps end_dt interval (current + interval) = 0 := by
          unfold ts_steps
          rw [if_neg hc2]
        have hsteps1 : ts_steps end_dt interval current = 1 := by
          unfold ts_steps
          rw [if_pos hc]
          have hk : (end_dt - current).toNat < interval.toNat := by omega
          rw [Nat.div_eq_of_lt hk]
        rw [hsteps0, hsteps1]
        rfl
    · rw [if_neg hc] at h
      injection h with h2
      subst h2
      unfold ts_steps
      rw [if_neg hc]
      simp [ts_expected]

/-- Termination of the time-series loop on a positive interval: enough
fuel completes the loop. -/
theorem ts_loop_complete (gen : Int → PyValue) (end_dt interval : Int)
    (hpos : 0 < interval) :
    ∀ (fuel : Nat) (current : Int) (acc : List TSPoint),
      (end_dt + 1 - current).toNat < fuel →
      (ts_loop gen end_dt interval fuel current acc).isSome = true := by
  intro fuel
  induction fuel with
  | zero =>
    intro current acc h
    omega
  | succ f ih =>
    intro current acc h
    simp only [ts_loop]
    by_cases hc : current ≤ end_dt
    · rw [if_pos hc]
      exact ih (current + interval) _ (by omega)
    · rw [if_neg hc]
      rfl

/-- Divergence of the time-series loop on a nonpositive interval: once the
loop is entered, no amount of fuel completes it, which models the Python
while loop never terminating. -/
theorem ts_loop_diverges (gen : Int → PyValue) (end_dt interval : Int)
    (hnonpos : interval ≤ 0) :
    ∀ (fuel : Nat) (current : Int) (acc : List TSPoint), current ≤ end_dt →
      ts_loop gen end_dt interval fuel current acc = Option.none := by
  intro fuel
  induction fuel with
  | zero =>
    intro current acc _
    rfl
  | succ f ih =>
    intro current acc hc
    simp only [ts_loop]
    rw [if_pos hc]
    exact ih _ _ (by omega)

/-- C6: on a valid equipment id and tag, start at most end, and a positive
interval, the time-series query completes and returns one data point per
interval step from start to end inclusive of both endpoints, so the point
count is floor((end - start) / interval) + 1. -/
theorem c6_timeseries_count (gen : Int → PyValue) (equipment_id tag_name : String)
    (tags : List String) (start_time end_time interval_seconds : Int)
    (heq : lookup_equipment equipment_id = Option.some tags)
    (htag : tag_name ∈ tags)
    (hse : start_time ≤ end_time) (hpos : 0 < interval_seconds) :
    ∃ fuel res,
      query_timeseries gen equipment_id tag_name start_time end_time
          interval_seconds fuel = Option.some (Except.ok res)
      ∧ res.data_points
          = (List.range ((end_time - start_time).toNat / interval_seconds.toNat + 1)).map
              (fun k => ⟨start_time + k * interval_seconds,
                gen (start_time + k * interval_seconds), "Good"⟩)
      ∧ res.count = (end_time - start_time).toNat / interval_seconds.toNat + 1 := by
  have hfuel : (end_time + 1 - start_time).toNat
      < (end_time + 1 - start_time).toNat + 1 := by omega
  have hsome := ts_loop_complete gen end_time interval_seconds hpos
    ((end_time + 1 - start_time).toNat + 1) start_time [] hfuel
  obtain ⟨pts, hpts⟩ := Option.isSome_iff_exists.1 hsome
  have hspec := ts_loop_some_spec gen end_time interval_seconds hpos
    ((end_time + 1 - start_time).toNat + 1) start_time [] pts hpts
  have hsteps : ts_steps end_time interval_seconds start_time
      = (end_time - start_time).toNat / interval_seconds.toNat + 1 := by
    unfold ts_steps
    rw [if_pos hse]
  rw [hsteps, List.nil_append, ts_expected_eq_map] at hspec
  refine ⟨(end_time + 1 - start_time).toNat + 1,
    ⟨equipment_id, tag_name, start_time, end_time, interval_seconds, pts, pts.length⟩,
    ?_, ?_, ?_⟩
  · unfold query_timeseries
    rw [heq]
    dsimp only
    rw [if_pos htag, hpts]
    rfl
  · show pts = _
    exact hspec
  · show pts.length = _
    rw [hspec]
    simp

/-- C6 witness: the query from time 0 to time 300 at interval 60 on a
valid equipment and tag returns exactly 6 points. -/
theorem c6_witness :
    ∃ fuel res,
      query_timeseries (fun _ => PyValue.none) "CNC-Machine-1" "Temperature"
          0 300 60 fuel = Option.some (Except.ok res)
      ∧ res.count = 6 := by
  obtain ⟨fuel, res, h1, _, h3⟩ :=
    c6_timeseries_count (fun _ => PyValue.none) "CNC-Machine-1" "Temperature"
      ["Temperature", "Speed", "Vibration", "Status"] 0 300 60 rfl
      (by decide) (by omega) (by omega)
  refine ⟨fuel, res, h1, ?_⟩
  rw [h3]
  decide

/-- C10: the time-series query terminates for every input once the
interval is at least 1 (validation failures return immediately, and the
generation loop completes); with a nonpositive interval and start at most
end on a valid equipment and tag, the generation loop never terminates,
for any amount of fuel; and nothing validates positivity at the public
tool interface: the registered schema leaves interval_seconds optional
with declared default 60, and the parameter the bridge derives from it
accepts every integer, including zero and negative values. -/
theorem c10_interval_unvalidated (gen : Int → PyValue)
    (start_time end_time interval_seconds : Int) :
    (1 ≤ interval_seconds → ∀ equipment_id tag_name, ∃ fuel,
        (query_timeseries gen equipment_id tag_name start_time end_time
          interval_seconds fuel).isSome = true)
    ∧ (interval_seconds ≤ 0 → start_time ≤ end_time →
        ∀ equipment_id tag_name tags fuel,
          lookup_equipment equipment_id = Option.some tags → tag_name ∈ tags →
          query_timeseries gen equipment_id tag_name start_time end_time
            interval_seconds fuel = Option.none)
    ∧ "interval_seconds" ∉ timeseries_schema.required
    ∧ (timeseries_schema.properties.find? (fun p => p.1 == "interval_seconds")).map
        (fun p => p.2.default) = Option.some (Option.some (PyValue.int 60))
    ∧ ∀ n : Int,
        field_accepts (derive_field timeseries_schema.required "interval_seconds"
          ⟨Option.some "integer", Option.some "Data point interval in seconds",
           Option.some (PyValue.int 60)⟩) (PyValue.int n) = true := by
  refine ⟨?_, ?_, by decide, rfl, fun n => rfl⟩
  · intro hiv equipment_id tag_name
    unfold query_timeseries
    cases hlk : lookup_equipment equipment_id with
    | none => exact ⟨1, rfl⟩
    | some tags =>
      dsimp only
      by_cases htag : tag_name ∈ tags
      · refine ⟨(end_time + 1 - start_time).toNat + 1, ?_⟩
        rw [if_pos htag]
        have hsome := ts_loop_complete gen end_time interval_seconds (by omega)
          ((end_time + 1 - start_time).toNat + 1) start_time [] (by omega)
        obtain ⟨pts, hpts⟩ := Option.isSome_iff_exists.1 hsome
        rw [hpts]
        rfl
      · exact ⟨1, by rw [if_neg htag]; rfl⟩
  · intro hnp hse equipment_id tag_name tags fuel hlk htag
    unfold query_timeseries
    rw [hlk]
    dsimp only
    rw [if_pos htag]
    rw [ts_loop_diverges gen end_time interval_seconds hnp fuel start_time [] hse]
    rfl

/-- C10 witness: at interval 60 the query from 0 to 300 completes for some
fuel, while at interval 0 it never produces a result, shown here at fuel
5. -/
theorem c10_witness :
    (∃ fuel, (query_timeseries (fun _ => PyValue.none) "CNC-Machine-1" "Temperature"
      0 300 60 fuel).isSome = true)
    ∧ query_timeseries (fun _ => PyValue.none) "CNC-Machine-1" "Temperature"
        0 300 0 5 = Option.none :=
  ⟨(c10_interval_unvalidated (fun _ => PyValue.none) 0 300 60).1 (by omega)
      "CNC-Machine-1" "Temperature",
   (c10_interval_unvalidated (fun _ => PyValue.none) 0 300 0).2.1 (by omega) (by omega)
      "CNC-Machine-1" "Temperature" ["Temperature", "Speed", "Vibration", "Status"]
      5 rfl (by decide)⟩
